import Mathlib

/-!
Verification development for the browser-session lifecycle and
live-interaction relay of the Webbbb repository.

The definitions below are a shallow embedding of the TypeScript source:
the `BrowserSessionManager` class and `restoreRunningSessions` function
(the browser manager module), the storage layer (`MemStorage` /
`DatabaseStorage`), the WebSocket connection handler of the server entry
point, and the coordinate handling of the client `BrowserViewer`
component.  Engine (puppeteer) operations are modelled as state
transitions on an explicit world; fallible engine steps are driven by an
explicit failure oracle.
-/

namespace Webbbb

/-- Persisted session status (`status` column: stopped/running/paused/error). -/
inductive SessStatus
  | stopped
  | running
  | paused
  | error
  deriving DecidableEq

/-- A session record as held by the Session Store (`browserSessions`). -/
structure SessionRec where
  id : String
  userId : String
  url : String
  status : SessStatus
  viewportWidth : Option Nat
  viewportHeight : Option Nat
  userAgent : Option String
  deriving DecidableEq

/-- A cookie as returned by the live engine (`page.cookies()`):
puppeteer's protocol cookie, with `expires = 0` encoding the JS-falsy
"no expiry" value and `sameSite` optional. -/
structure JarCookie where
  name : String
  value : String
  domain : String
  path : String
  expires : Int
  httpOnly : Bool
  secure : Bool
  sameSite : Option String
  deriving DecidableEq

/-- A cookie record as persisted by the Session Store (`cookies` table),
without the generated row id / timestamps. -/
structure StoredCookie where
  sessionId : String
  name : String
  value : String
  domain : Option String
  path : Option String
  expires : Option Int
  httpOnly : Bool
  secure : Bool
  sameSite : Option String
  deriving DecidableEq

/-- The Session Store: session records plus stored cookies, in insertion
order (both `MemStorage` maps and the SQL tables are consumed in
insertion/`createdAt` order). -/
structure Store where
  sessions : List SessionRec
  cookies : List StoredCookie
  deriving DecidableEq

/-- `storage.getBrowserSession(id)`. -/
def getBrowserSession (st : Store) (sid : String) : Option SessionRec :=
  st.sessions.find? (fun s => s.id = sid)

/-- Status of the persisted record for `sid`, if any. -/
def sessionStatus (st : Store) (sid : String) : Option SessStatus :=
  (getBrowserSession st sid).map (fun s => s.status)

/-- `storage.updateBrowserSession(id, { status })`: updates the matching
record's status field in place. -/
def updateSessionStatus (st : Store) (sid : String) (status : SessStatus) : Store :=
  { st with sessions := st.sessions.map (fun s => if s.id = sid then { s with status := status } else s) }

/-- `storage.getSessionCookies(sessionId)`. -/
def getSessionCookies (st : Store) (sid : String) : List StoredCookie :=
  st.cookies.filter (fun c => c.sessionId = sid)

/-- `storage.clearSessionCookies(sessionId)`: deletes every stored cookie
of the session. -/
def clearSessionCookies (st : Store) (sid : String) : Store :=
  { st with cookies := st.cookies.filter (fun c => c.sessionId ≠ sid) }

/-- `storage.createCookie(cookie)`: inserts one cookie record. -/
def createCookie (st : Store) (c : StoredCookie) : Store :=
  { st with cookies := st.cookies ++ [c] }

/-- The `InsertCookie` built by `saveCookies` from one live jar cookie:
`domain || null`, `path || null`, `expires ? ... : null`,
`httpOnly || false`, `secure || false`, `sameSite || null`. -/
def cookieFromJar (sid : String) (c : JarCookie) : StoredCookie :=
  { sessionId := sid
    name := c.name
    value := c.value
    domain := if c.domain = "" then none else some c.domain
    path := if c.path = "" then none else some c.path
    expires := if c.expires = 0 then none else some c.expires
    httpOnly := c.httpOnly
    secure := c.secure
    sameSite := match c.sameSite with
      | none => none
      | some s => if s = "" then none else some s }

/-- `BrowserSessionManager.saveCookies(sessionId, page)`: harvest the live
jar, clear all stored cookies of the session, then insert the harvested
set one by one. -/
def saveCookiesStore (st : Store) (sid : String) (jar : List JarCookie) : Store :=
  jar.foldl (fun acc c => createCookie acc (cookieFromJar sid c)) (clearSessionCookies st sid)

lemma foldl_createCookie_jar (sid : String) (jar : List JarCookie) (st : Store) :
    jar.foldl (fun acc c => createCookie acc (cookieFromJar sid c)) st =
      { st with cookies := st.cookies ++ jar.map (cookieFromJar sid) } := by
  induction jar generalizing st with
  | nil => simp
  | cons c t ih =>
      simp only [List.foldl_cons, List.map_cons]
      rw [ih]
      simp [createCookie, List.append_assoc]

lemma saveCookiesStore_eq (st : Store) (sid : String) (jar : List JarCookie) :
    saveCookiesStore st sid jar =
      { st with cookies := st.cookies.filter (fun c => c.sessionId ≠ sid) ++ jar.map (cookieFromJar sid) } := by
  rw [saveCookiesStore, foldl_createCookie_jar]
  rfl

lemma cookieFromJar_sessionId (sid : String) (c : JarCookie) :
    (cookieFromJar sid c).sessionId = sid := rfl

lemma filter_ne_map_cookieFromJar (sid : String) (jar : List JarCookie) :
    (jar.map (cookieFromJar sid)).filter (fun c => c.sessionId ≠ sid) = [] := by
  induction jar with
  | nil => rfl
  | cons c t ih => simp [List.filter_cons, cookieFromJar_sessionId, ih]

lemma filter_eq_map_cookieFromJar (sid : String) (jar : List JarCookie) :
    (jar.map (cookieFromJar sid)).filter (fun c => c.sessionId = sid) = jar.map (cookieFromJar sid) := by
  induction jar with
  | nil => rfl
  | cons c t ih => simp [List.filter_cons, cookieFromJar_sessionId, ih]

lemma filter_ne_filter_eq_nil (l : List StoredCookie) (sid : String) :
    (l.filter (fun c => c.sessionId ≠ sid)).filter (fun c => c.sessionId = sid) = [] := by
  induction l with
  | nil => rfl
  | cons c t ih =>
      by_cases h : c.sessionId = sid
      · simp [List.filter_cons, h, ih]
      · simp [List.filter_cons, h, ih]

lemma filter_ne_idem (l : List StoredCookie) (sid : String) :
    (l.filter (fun c => c.sessionId ≠ sid)).filter (fun c => c.sessionId ≠ sid) =
      l.filter (fun c => c.sessionId ≠ sid) := by
  induction l with
  | nil => rfl
  | cons c t ih =>
      by_cases h : c.sessionId = sid
      · simp [List.filter_cons, h, ih]
      · simp [List.filter_cons, h, ih]

/-- C5: cookie synchronization replaces the stored set wholesale (the
resulting cookie list is the other sessions' cookies followed by the
harvested set), running it twice with the same live jar equals running
it once, and the stored cookie set of the session afterwards is exactly
the harvested jar. -/
theorem saveCookies_wholesale_and_idempotent (st : Store) (sid : String) (jar : List JarCookie) :
    (saveCookiesStore st sid jar).cookies =
        st.cookies.filter (fun c => c.sessionId ≠ sid) ++ jar.map (cookieFromJar sid) ∧
      saveCookiesStore (saveCookiesStore st sid jar) sid jar = saveCookiesStore st sid jar ∧
      getSessionCookies (saveCookiesStore st sid jar) sid = jar.map (cookieFromJar sid) := by
  refine ⟨by rw [saveCookiesStore_eq], ?_, ?_⟩
  · rw [saveCookiesStore_eq (saveCookiesStore st sid jar) sid jar, saveCookiesStore_eq st sid jar]
    congr 1
    rw [List.filter_append, filter_ne_map_cookieFromJar, List.append_nil, filter_ne_idem]
  · rw [saveCookiesStore_eq]
    show ((st.cookies.filter (fun c => c.sessionId ≠ sid) ++ jar.map (cookieFromJar sid)).filter
      (fun c => c.sessionId = sid)) = jar.map (cookieFromJar sid)
    rw [List.filter_append, filter_ne_filter_eq_nil, List.nil_append, filter_eq_map_cookieFromJar]

/-- An Engine Handle: the value stored in the module-level
`activeBrowsers` map (browser + page + optional CDP session + stream
client set).  The engine-side page state that the claims need is the
closed flag, the current URL and the live cookie jar; the CDP control
channel is identified by a creation number and stream clients by
connection ids. -/
structure Handle where
  engineId : Nat
  pageClosed : Bool
  currentUrl : String
  liveJar : List JarCookie
  cdpChannel : Option Nat
  streamClients : List Nat
  deriving DecidableEq

/-- The in-process world: the Session Store, the `activeBrowsers`
registry (a JS `Map`, modelled as an association list with replace-on-set
semantics), and a count of engine processes launched so far. -/
structure World where
  store : Store
  registry : List (String × Handle)
  enginesLaunched : Nat
  deriving DecidableEq

/-- `activeBrowsers.get(sessionId)`: first (and, for a JS `Map`, only)
entry with the key. -/
def registryLookup : List (String × Handle) → String → Option Handle
  | [], _ => none
  | p :: t, sid => if p.1 = sid then some p.2 else registryLookup t sid

/-- `activeBrowsers.has(sessionId)`. -/
def registryHas : List (String × Handle) → String → Bool
  | [], _ => false
  | p :: t, sid => p.1 = sid || registryHas t sid

/-- `activeBrowsers.set(sessionId, handle)`: replaces the entry for an
existing key, otherwise appends (JS `Map` set semantics). -/
def registrySet (r : List (String × Handle)) (sid : String) (h : Handle) : List (String × Handle) :=
  if registryHas r sid then
    r.map (fun p => if p.1 = sid then (sid, h) else p)
  else
    r ++ [(sid, h)]

/-- `activeBrowsers.delete(sessionId)`. -/
def registryDelete (r : List (String × Handle)) (sid : String) : List (String × Handle) :=
  r.filter (fun p => p.1 ≠ sid)

lemma registryLookup_map_other (t : List (String × Handle)) (sid sid' : String) (h : Handle)
    (hne : sid' ≠ sid) :
    registryLookup (t.map (fun q => if q.1 = sid then (sid, h) else q)) sid' =
      registryLookup t sid' := by
  induction t with
  | nil => rfl
  | cons q t ih =>
      by_cases hq : q.1 = sid
      · have h1 : ¬ (sid = sid') := fun hh => hne hh.symm
        have h2 : ¬ (q.1 = sid') := by rw [hq]; exact h1
        simp [registryLookup, hq, h1, h2, ih]
      · by_cases hq' : q.1 = sid'
        · simp [registryLookup, hq, hq', hne]
        · simp [registryLookup, hq, hq', ih]

lemma registrySet_cons (p : String × Handle) (t : List (String × Handle)) (sid : String) (h : Handle) :
    registrySet (p :: t) sid h =
      if p.1 = sid then
        (sid, h) :: t.map (fun q => if q.1 = sid then (sid, h) else q)
      else p :: registrySet t sid h := by
  by_cases hp : p.1 = sid
  · simp [registrySet, registryHas, hp]
  · by_cases hht : registryHas t sid
    · simp [registrySet, registryHas, hp, hht]
    · simp [registrySet, registryHas, hp, hht]

lemma registryLookup_set (r : List (String × Handle)) (sid sid' : String) (h : Handle) :
    registryLookup (registrySet r sid h) sid' =
      if sid' = sid then some h else registryLookup r sid' := by
  induction r with
  | nil =>
      by_cases hs : sid' = sid
      · simp [registrySet, registryHas, registryLookup, hs]
      · have h1 : ¬ (sid = sid') := fun hh => hs hh.symm
        simp [registrySet, registryHas, registryLookup, hs, h1]
  | cons p t ih =>
      rw [registrySet_cons]
      by_cases hp : p.1 = sid
      · rw [if_pos hp]
        by_cases hs : sid' = sid
        · simp [registryLookup, hs]
        · have h1 : ¬ (sid = sid') := fun hh => hs hh.symm
          have h2 : ¬ (p.1 = sid') := by rw [hp]; exact h1
          simp [registryLookup, hs, h1, h2, registryLookup_map_other t sid sid' h hs]
      · rw [if_neg hp]
        by_cases hp' : p.1 = sid'
        · have hs : ¬ (sid' = sid) := fun hh => hp (hp'.trans hh)
          simp [registryLookup, hp', hs]
        · simp [registryLookup, hp', ih]

/-- The fallible engine steps of `startSession`, in source order.  The
post-navigation `saveCookies` call is absent: its body catches and logs
every error, so it can never make `startSession` fail. -/
inductive StartStep
  | findChromium
  | launch
  | newPage
  | setViewport
  | setUserAgent
  | importCookies
  | navigate
  deriving DecidableEq

/-- Failure outcome of `startSession`: the not-found throw before the
try block, or a failure of one engine step inside it. -/
inductive StartErr
  | notFound
  | stepFailed (s : StartStep)
  deriving DecidableEq

/-- A whitespace character as stripped by `String.prototype.trim`
(restricted to the ASCII whitespace actually occurring in URLs). -/
def isJsWhitespace (c : Char) : Bool :=
  c = ' ' || c = '\t' || c = '\n' || c = '\r'

/-- `url.trim()`: strip leading and trailing whitespace. -/
def jsTrim (s : String) : String :=
  String.mk (((s.data.dropWhile isJsWhitespace).reverse.dropWhile isJsWhitespace).reverse)

/-- The navigation target chosen by `startSession`: the session URL when
it is non-empty, non-blank and not already `about:blank`; otherwise the
neutral blank page. -/
def navTarget (url : String) : String :=
  if url ≠ "" ∧ jsTrim url ≠ "" ∧ url ≠ "about:blank" then url else "about:blank"

/-- The try block of `startSession` (finding Chromium through persisting
status=running).  `failAt` is the failure oracle: the engine step that
throws, if any; `jar` is the live cookie jar harvested after navigation.
A step that the code skips (user-agent when the session has none, the
cookie import when no cookies are stored) cannot fail.  On failure the world is
returned as mutated so far (a launched engine process is not undone);
the store and registry are only touched by the final success steps. -/
def tryStartBody (failAt : Option StartStep) (jar : List JarCookie) (s : SessionRec)
    (w : World) (sid : String) : World × Option StartStep :=
  if failAt = some .findChromium then (w, some .findChromium)
  else if failAt = some .launch then (w, some .launch)
  else
    let w1 : World := { w with enginesLaunched := w.enginesLaunched + 1 }
    if failAt = some .newPage then (w1, some .newPage)
    else if failAt = some .setViewport then (w1, some .setViewport)
    else if s.userAgent.isSome ∧ failAt = some .setUserAgent then (w1, some .setUserAgent)
    else if getSessionCookies w1.store sid ≠ [] ∧ failAt = some .importCookies then (w1, some .importCookies)
    else if failAt = some .navigate then (w1, some .navigate)
    else
      let w2 : World := { w1 with store := saveCookiesStore w1.store sid jar }
      let h : Handle :=
        { engineId := w.enginesLaunched
          pageClosed := false
          currentUrl := navTarget s.url
          liveJar := jar
          cdpChannel := none
          streamClients := [] }
      let w3 : World := { w2 with registry := registrySet w2.registry sid h }
      let w4 : World := { w3 with store := updateSessionStatus w3.store sid .running }
      (w4, none)

/-- `BrowserSessionManager.startSession(sessionId)`: no-op when a handle
is already registered; throw not-found when the store has no record;
otherwise run the try block, and on failure persist status=error and
rethrow. -/
def startSession (failAt : Option StartStep) (jar : List JarCookie)
    (w : World) (sid : String) : World × Option StartErr :=
  if registryHas w.registry sid then (w, none)
  else
    match getBrowserSession w.store sid with
    | none => (w, some .notFound)
    | some s =>
      match tryStartBody failAt jar s w sid with
      | (w', none) => (w', none)
      | (w', some step) =>
        ({ w' with store := updateSessionStatus w'.store sid .error }, some (.stepFailed step))

lemma getBrowserSession_update (st : Store) (sid : String) (status : SessStatus) :
    getBrowserSession (updateSessionStatus st sid status) sid =
      (getBrowserSession st sid).map (fun s => { s with status := status }) := by
  simp only [getBrowserSession, updateSessionStatus]
  induction st.sessions with
  | nil => rfl
  | cons s t ih =>
      by_cases h : s.id = sid
      · simp [List.find?_cons, h]
      · simp only [List.map_cons, List.find?_cons, if_neg h]
        have hs : (decide (s.id = sid)) = false := by simp [h]
        rw [hs]
        simpa using ih

lemma sessionStatus_update_of_found (st : Store) (sid : String) (status : SessStatus)
    (h : (getBrowserSession st sid).isSome) :
    sessionStatus (updateSessionStatus st sid status) sid = some status := by
  rcases Option.isSome_iff_exists.mp h with ⟨s, hs⟩
  simp [sessionStatus, getBrowserSession_update, hs]

lemma tryStartBody_failure (failAt : Option StartStep) (jar : List JarCookie)
    (s : SessionRec) (w : World) (sid : String) (step : StartStep)
    (h : (tryStartBody failAt jar s w sid).2 = some step) :
    (tryStartBody failAt jar s w sid).1.store = w.store ∧
      (tryStartBody failAt jar s w sid).1.registry = w.registry := by
  simp only [tryStartBody] at h ⊢
  split_ifs at h ⊢ <;> simp_all

lemma tryStartBody_success (failAt : Option StartStep) (jar : List JarCookie)
    (s : SessionRec) (w : World) (sid : String)
    (h : (tryStartBody failAt jar s w sid).2 = none) :
    tryStartBody failAt jar s w sid =
      (let w2 : World := { w with
          enginesLaunched := w.enginesLaunched + 1
          store := saveCookiesStore w.store sid jar }
        let hdl : Handle :=
          { engineId := w.enginesLaunched
            pageClosed := false
            currentUrl := navTarget s.url
            liveJar := jar
            cdpChannel := none
            streamClients := [] }
        let w3 : World := { w2 with registry := registrySet w2.registry sid hdl }
        ({ w3 with store := updateSessionStatus w3.store sid .running }, none)) := by
  simp only [tryStartBody] at h ⊢
  split_ifs at h ⊢
  simp_all

/-- C2: whenever `startSession` fails inside its try block (any engine
step after the session record was loaded), the failure is propagated to
the caller, the session's persisted status is set to `error`, and the
in-memory registry is left exactly as it was — in particular no handle
for the session is registered. -/
theorem startSession_failure_persists_error_registers_nothing
    (failAt : Option StartStep) (jar : List JarCookie) (w : World) (sid : String)
    (step : StartStep)
    (h : (startSession failAt jar w sid).2 = some (.stepFailed step)) :
    sessionStatus (startSession failAt jar w sid).1.store sid = some .error ∧
      (startSession failAt jar w sid).1.registry = w.registry := by
  by_cases hreg : registryHas w.registry sid
  · simp [startSession, hreg] at h
  · cases hfind : getBrowserSession w.store sid with
    | none => simp [startSession, hreg, hfind] at h
    | some s =>
      cases htry : tryStartBody failAt jar s w sid with
      | mk w' res =>
        cases res with
        | none => simp [startSession, hreg, hfind, htry] at h
        | some st2 =>
          have hst := tryStartBody_failure failAt jar s w sid st2 (by rw [htry])
          rw [htry] at hst
          simp only [startSession, hreg, Bool.false_eq_true, if_false, hfind, htry]
          refine ⟨?_, hst.2⟩
          exact sessionStatus_update_of_found _ _ _ (by rw [hst.1, hfind]; rfl)

/-- A concrete session record used to instantiate the lifecycle theorems. -/
def sampleSession : SessionRec :=
  { id := "s1"
    userId := "admin"
    url := "https://example.com"
    status := .stopped
    viewportWidth := some 1280
    viewportHeight := some 720
    userAgent := none }

/-- A concrete world holding `sampleSession`, with nothing running. -/
def sampleWorld : World :=
  { store := { sessions := [sampleSession], cookies := [] }
    registry := []
    enginesLaunched := 0 }

/-- Witness for the C2 theorem: a start whose engine launch fails leaves
status=error and an unchanged (empty) registry. -/
theorem startSession_failure_persists_error_registers_nothing_witness :
    sessionStatus (startSession (some .launch) [] sampleWorld "s1").1.store "s1" = some .error ∧
      (startSession (some .launch) [] sampleWorld "s1").1.registry = sampleWorld.registry :=
  startSession_failure_persists_error_registers_nothing (some .launch) [] sampleWorld "s1"
    .launch rfl

lemma getBrowserSession_saveCookies (st : Store) (sid sid' : String) (jar : List JarCookie) :
    getBrowserSession (saveCookiesStore st sid' jar) sid = getBrowserSession st sid := by
  rw [saveCookiesStore_eq]
  rfl

/-- C8: starting a session whose target URL is blank succeeds (no engine
failures assumed): the error result is empty, the registered handle's
page sits on `about:blank`, and the persisted status is `running`. -/
theorem startSession_blank_url_succeeds
    (jar : List JarCookie) (w : World) (sid : String) (s : SessionRec)
    (hreg : registryHas w.registry sid = false)
    (hfind : getBrowserSession w.store sid = some s)
    (hblank : jsTrim s.url = "") :
    (startSession none jar w sid).2 = none ∧
      (registryLookup (startSession none jar w sid).1.registry sid).map (fun hd => hd.currentUrl) =
        some "about:blank" ∧
      sessionStatus (startSession none jar w sid).1.store sid = some .running := by
  have hnav : navTarget s.url = "about:blank" := by
    simp [navTarget, hblank]
  have htry := tryStartBody_success none jar s w sid (by simp [tryStartBody])
  simp only [startSession, hreg, Bool.false_eq_true, if_false, hfind, htry]
  refine ⟨trivial, ?_, ?_⟩
  · rw [registryLookup_set]
    simp [hnav]
  · apply sessionStatus_update_of_found
    rw [getBrowserSession_saveCookies, hfind]
    rfl

/-- A concrete stored session whose URL is empty. -/
def blankSession : SessionRec :=
  { id := "s2"
    userId := "admin"
    url := ""
    status := .stopped
    viewportWidth := none
    viewportHeight := none
    userAgent := none }

/-- A concrete world holding only `blankSession`. -/
def blankWorld : World :=
  { store := { sessions := [blankSession], cookies := [] }
    registry := []
    enginesLaunched := 0 }

/-- Witness for the C8 theorem at the empty-URL session `s2`. -/
theorem startSession_blank_url_succeeds_witness :
    (startSession none [] blankWorld "s2").2 = none ∧
      (registryLookup (startSession none [] blankWorld "s2").1.registry "s2").map
        (fun hd => hd.currentUrl) = some "about:blank" ∧
      sessionStatus (startSession none [] blankWorld "s2").1.store "s2" = some .running :=
  startSession_blank_url_succeeds [] blankWorld "s2" blankSession rfl rfl (by decide)

/-- A handle left in the registry after its store record was deleted
(reachable: the delete route removes the store record even when
`stopSession` failed before `activeBrowsers.delete`). -/
def staleHandle : Handle :=
  { engineId := 0
    pageClosed := false
    currentUrl := "about:blank"
    liveJar := []
    cdpChannel := none
    streamClients := [] }

/-- A world with a registered handle for `s1` but no store record. -/
def staleWorld : World :=
  { store := { sessions := [], cookies := [] }
    registry := [("s1", staleHandle)]
    enginesLaunched := 1 }

/-- C10 counterexample: in a world where session `s1` has no record in
the Session Store but a (stale) handle is still registered,
`startSession` does not throw not-found — the registry check precedes
the store lookup, so the call returns as a successful no-op. -/
theorem startSession_missing_record_counterexample :
    getBrowserSession staleWorld.store "s1" = none ∧
      (startSession none [] staleWorld "s1").2 = none := by
  constructor
  · rfl
  · rfl

/-- C10 as amended: for a session id with no store record and no
registered handle, `startSession` fails with not-found and returns the
world completely unchanged — no engine launched, no store write, in
particular no status=error. -/
theorem startSession_missing_record_not_found
    (failAt : Option StartStep) (jar : List JarCookie) (w : World) (sid : String)
    (hreg : registryHas w.registry sid = false)
    (hfind : getBrowserSession w.store sid = none) :
    startSession failAt jar w sid = (w, some .notFound) := by
  simp [startSession, hreg, hfind]

/-- A concrete world with no sessions at all. -/
def emptyWorld : World :=
  { store := { sessions := [], cookies := [] }
    registry := []
    enginesLaunched := 0 }

/-- Witness for the amended C10 theorem on the empty world. -/
theorem startSession_missing_record_not_found_witness :
    startSession none [] emptyWorld "s1" = (emptyWorld, some .notFound) :=
  startSession_missing_record_not_found none [] emptyWorld "s1" rfl rfl

/-- Failure mode of the input dispatch methods: the throw raised when no
handle is registered for the session. -/
inductive DispatchErr
  | notRunning
  deriving DecidableEq

/-- `dispatchMouseEvent(sessionId, type, x, y, button)`: throws when no
handle exists; returns silently when the page is already closed; on a
live page applies the event and then runs `saveCookies` with the live
jar.  The third component records whether the event actually reached the
engine. -/
def dispatchMouseEvent (w : World) (sid : String) (eventType : String) (x y : ℚ)
    (button : Option String) : World × Option DispatchErr × Bool :=
  match registryLookup w.registry sid with
  | none => (w, some .notRunning, false)
  | some inst =>
    if inst.pageClosed then (w, none, false)
    else ({ w with store := saveCookiesStore w.store sid inst.liveJar }, none, true)

/-- `dispatchKeyEvent(sessionId, type, key, text)`: same guard structure;
keyboard application has no effect outside the engine. -/
def dispatchKeyEvent (w : World) (sid : String) (eventType key : String)
    (text : Option String) : World × Option DispatchErr × Bool :=
  match registryLookup w.registry sid with
  | none => (w, some .notRunning, false)
  | some inst =>
    if inst.pageClosed then (w, none, false)
    else (w, none, true)

/-- `dispatchScrollEvent(sessionId, deltaX, deltaY)`: same guard
structure; the scroll is evaluated inside the page. -/
def dispatchScrollEvent (w : World) (sid : String) (deltaX deltaY : ℚ) :
    World × Option DispatchErr × Bool :=
  match registryLookup w.registry sid with
  | none => (w, some .notRunning, false)
  | some inst =>
    if inst.pageClosed then (w, none, false)
    else (w, none, true)

/-- C4: every interaction event (mouse, key, scroll) dispatched for a
session whose page has been torn down while its handle is still
registered is silently discarded: no error is raised, the event does not
reach the engine, and the world — in particular the persisted session
status — is unchanged. -/
theorem dispatch_on_closed_page_is_silent_noop
    (w : World) (sid : String) (inst : Handle)
    (eventType key : String) (x y dx dy : ℚ) (button : Option String) (text : Option String)
    (hreg : registryLookup w.registry sid = some inst)
    (hclosed : inst.pageClosed = true) :
    dispatchMouseEvent w sid eventType x y button = (w, none, false) ∧
      dispatchKeyEvent w sid eventType key text = (w, none, false) ∧
      dispatchScrollEvent w sid dx dy = (w, none, false) := by
  refine ⟨?_, ?_, ?_⟩
  · simp [dispatchMouseEvent, hreg, hclosed]
  · simp [dispatchKeyEvent, hreg, hclosed]
  · simp [dispatchScrollEvent, hreg, hclosed]

/-- A handle whose page has been closed by a concurrent stop. -/
def closedHandle : Handle :=
  { engineId := 0
    pageClosed := true
    currentUrl := "https://example.com"
    liveJar := []
    cdpChannel := none
    streamClients := [] }

/-- A world in which session `s1`'s page is closed but the handle is
still registered. -/
def closedPageWorld : World :=
  { store := { sessions := [sampleSession], cookies := [] }
    registry := [("s1", closedHandle)]
    enginesLaunched := 1 }

/-- Witness for the C4 theorem on `closedPageWorld`. -/
theorem dispatch_on_closed_page_is_silent_noop_witness :
    dispatchMouseEvent closedPageWorld "s1" "mousePressed" 10 20 (some "left") =
        (closedPageWorld, none, false) ∧
      dispatchKeyEvent closedPageWorld "s1" "keyDown" "Enter" none =
        (closedPageWorld, none, false) ∧
      dispatchScrollEvent closedPageWorld "s1" 0 120 = (closedPageWorld, none, false) :=
  dispatch_on_closed_page_is_silent_noop closedPageWorld "s1" closedHandle
    "mousePressed" "Enter" 10 20 0 120 (some "left") none rfl rfl

/-- The only transformation `dispatchMouseEvent` applies to an incoming
pointer coordinate before handing it to the engine:
`Math.round(x)` (lines 578-579 of the browser manager). -/
def dispatchedMouseCoord (x : ℚ) : ℤ := round x

/-- The coordinate the viewer sends over the streaming transport for a
pointer event on its canvas: `(e.clientX - rect.left) * scaleX` with
`scaleX = viewportWidth / rect.width` (BrowserViewer canvas handlers). -/
def viewerScaledCoord (clientX rectLeft rectWidth viewportWidth : ℚ) : ℚ :=
  (clientX - rectLeft) * (viewportWidth / rectWidth)

/-- Modelled from the spec: the rescaling the spec assigns to the
server-side Input Dispatcher — a coordinate expressed in the viewer's
rendered surface size, rescaled to the session's configured viewport
dimensions. -/
def specDispatcherRescale (x surface viewport : ℚ) : ℚ :=
  x * (viewport / surface)

/-- C3 counterexample: for a viewer surface 960 px wide and a session
viewport 1920 px wide, the spec requires the dispatcher to turn an
arriving coordinate 100 into 200; the dispatcher actually applies 100
(it only rounds, it never rescales). -/
theorem dispatcher_rescale_counterexample :
    dispatchedMouseCoord 100 = 100 ∧
      specDispatcherRescale 100 960 1920 = 200 ∧
      (dispatchedMouseCoord 100 : ℚ) ≠ specDispatcherRescale 100 960 1920 := by
  refine ⟨?_, ?_, ?_⟩
  · norm_num [dispatchedMouseCoord]
  · norm_num [specDispatcherRescale]
  · norm_num [dispatchedMouseCoord, specDispatcherRescale]

/-- C3 as amended: the rescaling from rendered-surface coordinates to
viewport coordinates is performed by the viewer before sending — the
value it sends is exactly the spec's rescale of the surface-relative
offset — and the dispatcher applies that value with rounding as its only
transformation; composing the two, the engine receives the correctly
rescaled viewport coordinate (rounded), and the rescale inverts back to
the surface offset. -/
theorem viewer_scales_dispatcher_only_rounds
    (clientX rectLeft rectWidth viewportWidth : ℚ)
    (hw : rectWidth ≠ 0) (hv : viewportWidth ≠ 0) :
    viewerScaledCoord clientX rectLeft rectWidth viewportWidth =
        specDispatcherRescale (clientX - rectLeft) rectWidth viewportWidth ∧
      dispatchedMouseCoord (viewerScaledCoord clientX rectLeft rectWidth viewportWidth) =
        round (specDispatcherRescale (clientX - rectLeft) rectWidth viewportWidth) ∧
      specDispatcherRescale (clientX - rectLeft) rectWidth viewportWidth *
          (rectWidth / viewportWidth) = clientX - rectLeft := by
  refine ⟨rfl, rfl, ?_⟩
  simp only [specDispatcherRescale]
  field_simp

/-- Witness for the amended C3 theorem at surface width 960, viewport
width 1920, click at client offset 150 from a canvas starting at 50. -/
theorem viewer_scales_dispatcher_only_rounds_witness :
    viewerScaledCoord 150 50 960 1920 = specDispatcherRescale (150 - 50) 960 1920 ∧
      dispatchedMouseCoord (viewerScaledCoord 150 50 960 1920) =
        round (specDispatcherRescale (150 - 50) 960 1920) ∧
      specDispatcherRescale (150 - 50) 960 1920 * (960 / 1920) = 150 - 50 :=
  viewer_scales_dispatcher_only_rounds 150 50 960 1920 (by norm_num) (by norm_num)

/-- The per-handle screencast state: the optional CDP control channel
(identified by its creation number), the stream-client set (connection
ids, `Set` semantics), a counter for numbering channels, and a count of
`Page.startScreencast` commands sent (engine operations modelled as
succeeding). -/
structure RelayState where
  cdpChannel : Option Nat
  clients : List Nat
  nextChannel : Nat
  captureStarts : Nat
  deriving DecidableEq

/-- `streamClients.add(ws)` (JS `Set`: adding an existing member is a
no-op). -/
def clientsAdd (l : List Nat) (ws : Nat) : List Nat :=
  if ws ∈ l then l else l ++ [ws]

/-- `streamClients.delete(ws)`. -/
def clientsDelete (l : List Nat) (ws : Nat) : List Nat :=
  l.filter (fun c => c ≠ ws)

/-- `startScreencast(sessionId, ws)` on an existing handle: add the
client; if no CDP session exists, create one and send
`Page.startScreencast`; otherwise reuse the existing CDP session. -/
def startScreencastR (s : RelayState) (ws : Nat) : RelayState :=
  let s1 := { s with clients := clientsAdd s.clients ws }
  match s1.cdpChannel with
  | some _ => s1
  | none =>
      { s1 with
        cdpChannel := some s1.nextChannel
        nextChannel := s1.nextChannel + 1
        captureStarts := s1.captureStarts + 1 }

/-- `stopScreencast(sessionId, ws)` on an existing handle: remove the
client; if the client set became empty and a CDP session exists, send
`Page.stopScreencast`, detach, and clear the channel. -/
def stopScreencastR (s : RelayState) (ws : Nat) : RelayState :=
  let s1 := { s with clients := clientsDelete s.clients ws }
  if s1.clients = [] ∧ s1.cdpChannel.isSome then { s1 with cdpChannel := none } else s1

/-- A subscribe or unsubscribe operation by one viewer connection. -/
inductive RelayOp
  | sub (ws : Nat)
  | unsub (ws : Nat)
  deriving DecidableEq

/-- Run a sequence of subscribe/unsubscribe operations. -/
def runRelay (ops : List RelayOp) (s : RelayState) : RelayState :=
  ops.foldl (fun st op =>
    match op with
    | .sub ws => startScreencastR st ws
    | .unsub ws => stopScreencastR st ws) s

/-- The screencast state of a freshly created handle: no CDP session, no
clients. -/
def relayInit : RelayState :=
  { cdpChannel := none, clients := [], nextChannel := 0, captureStarts := 0 }

lemma clientsAdd_ne_nil (l : List Nat) (ws : Nat) : clientsAdd l ws ≠ [] := by
  by_cases hmem : ws ∈ l
  · simp only [clientsAdd, if_pos hmem]
    exact List.ne_nil_of_mem hmem
  · simp [clientsAdd, hmem]

lemma startScreencastR_clients (s : RelayState) (ws : Nat) :
    (startScreencastR s ws).clients = clientsAdd s.clients ws := by
  cases hc : s.cdpChannel with
  | some c => simp [startScreencastR, hc]
  | none => simp [startScreencastR, hc]

lemma startScreencastR_cdp_isSome (s : RelayState) (ws : Nat) :
    (startScreencastR s ws).cdpChannel.isSome := by
  cases hc : s.cdpChannel with
  | some c => simp [startScreencastR, hc]
  | none => simp [startScreencastR, hc]

lemma relayInv_sub (s : RelayState) (ws : Nat) :
    ((startScreencastR s ws).cdpChannel.isSome ↔ (startScreencastR s ws).clients ≠ []) := by
  constructor
  · intro _
    rw [startScreencastR_clients]
    exact clientsAdd_ne_nil _ _
  · intro _
    exact startScreencastR_cdp_isSome s ws

lemma relayInv_unsub (s : RelayState) (ws : Nat)
    (h : s.cdpChannel.isSome ↔ s.clients ≠ []) :
    ((stopScreencastR s ws).cdpChannel.isSome ↔ (stopScreencastR s ws).clients ≠ []) := by
  simp only [stopScreencastR]
  by_cases hcond : (clientsDelete s.clients ws = [] ∧ s.cdpChannel.isSome = true)
  · rw [if_pos hcond]
    simp [hcond.1]
  · rw [if_neg hcond]
    by_cases hA : clientsDelete s.clients ws = []
    · have hB : ¬ (s.cdpChannel.isSome = true) := fun hb => hcond ⟨hA, hb⟩
      simp [hA, hB]
    · have hne : s.clients ≠ [] := by
        intro hnil
        rw [hnil] at hA
        exact hA rfl
      simp [hA, h.mpr hne]

lemma relayInv_run (ops : List RelayOp) (s : RelayState)
    (h : s.cdpChannel.isSome ↔ s.clients ≠ []) :
    ((runRelay ops s).cdpChannel.isSome ↔ (runRelay ops s).clients ≠ []) := by
  induction ops generalizing s with
  | nil => exact h
  | cons op t ih =>
      cases op with
      | sub ws => exact ih (startScreencastR s ws) (relayInv_sub s ws)
      | unsub ws => exact ih (stopScreencastR s ws) (relayInv_unsub s ws h)

/-- C6: starting from a fresh handle, after any sequence of
subscribe/unsubscribe operations frame capture (an established CDP
control channel) is active exactly when the subscriber set is non-empty;
subscribing while capture is active reuses the existing channel and
sends no second `Page.startScreencast`; unsubscribing the last viewer
empties the subscriber set and tears down the channel; and a subscribe
while no channel exists starts a fresh capture. -/
theorem screencast_relay_invariants :
    (∀ ops : List RelayOp,
      ((runRelay ops relayInit).cdpChannel.isSome ↔ (runRelay ops relayInit).clients ≠ [])) ∧
      (∀ s : RelayState, ∀ ws c : Nat, s.cdpChannel = some c →
        (startScreencastR s ws).cdpChannel = some c ∧
          (startScreencastR s ws).captureStarts = s.captureStarts) ∧
      (∀ s : RelayState, ∀ ws : Nat, s.clients = [ws] →
        (stopScreencastR s ws).clients = [] ∧ (stopScreencastR s ws).cdpChannel = none) ∧
      (∀ s : RelayState, ∀ ws : Nat, s.cdpChannel = none →
        (startScreencastR s ws).cdpChannel = some s.nextChannel ∧
          (startScreencastR s ws).captureStarts = s.captureStarts + 1) := by
  refine ⟨?_, ?_, ?_, ?_⟩
  · intro ops
    exact relayInv_run ops relayInit (by simp [relayInit])
  · intro s ws c hc
    constructor
    · simp [startScreencastR, hc]
    · simp [startScreencastR, hc]
  · intro s ws hcl
    have hdel : clientsDelete s.clients ws = [] := by
      rw [hcl]
      simp [clientsDelete]
    cases hc : s.cdpChannel with
    | some c => simp [stopScreencastR, hdel, hc]
    | none => simp [stopScreencastR, hdel, hc]
  · intro s ws hc
    constructor
    · simp [startScreencastR, hc]
    · simp [startScreencastR, hc]

/-- A relay state with an active capture on channel 7 and one viewer. -/
def relayDemoActive : RelayState :=
  { cdpChannel := some 7, clients := [1], nextChannel := 8, captureStarts := 3 }

/-- A relay state after the last viewer left: no channel, no clients. -/
def relayDemoIdle : RelayState :=
  { cdpChannel := none, clients := [], nextChannel := 8, captureStarts := 3 }

/-- Witness for the C6 theorem: invariant evaluated on a concrete
subscribe/unsubscribe/subscribe run, channel reuse on `relayDemoActive`,
last-unsubscribe teardown on `relayDemoActive`, and restart on
`relayDemoIdle`. -/
theorem screencast_relay_invariants_witness :
    ((runRelay [RelayOp.sub 1, RelayOp.unsub 1, RelayOp.sub 2] relayInit).cdpChannel.isSome ↔
        (runRelay [RelayOp.sub 1, RelayOp.unsub 1, RelayOp.sub 2] relayInit).clients ≠ []) ∧
      ((startScreencastR relayDemoActive 2).cdpChannel = some 7 ∧
        (startScreencastR relayDemoActive 2).captureStarts = relayDemoActive.captureStarts) ∧
      ((stopScreencastR relayDemoActive 1).clients = [] ∧
        (stopScreencastR relayDemoActive 1).cdpChannel = none) ∧
      ((startScreencastR relayDemoIdle 2).cdpChannel = some relayDemoIdle.nextChannel ∧
        (startScreencastR relayDemoIdle 2).captureStarts = relayDemoIdle.captureStarts + 1) :=
  ⟨screencast_relay_invariants.1 [RelayOp.sub 1, RelayOp.unsub 1, RelayOp.sub 2],
    screencast_relay_invariants.2.1 relayDemoActive 2 7 rfl,
    screencast_relay_invariants.2.2.1 relayDemoActive 1 rfl,
    screencast_relay_invariants.2.2.2 relayDemoIdle 2 rfl⟩

/-- One in-flight `startSession` call under Node's cooperative
scheduling.  The synchronous segments between `await` points are:
pc 0 — the `activeBrowsers.has` check (then `await getBrowserSession`);
pc 1 — receive the session record (then launch);
pc 2 — the engine process comes up (then page/viewport/UA/cookies/navigation);
pc 3 — navigation completes and `saveCookies` persists the jar;
pc 4 — `activeBrowsers.set` plus persisting status=running.
`res` is set once the call returns (`some none` for success or no-op,
`some (some e)` for a throw). -/
structure ConcTask where
  sid : String
  jar : List JarCookie
  loaded : Option SessionRec
  pc : Nat
  res : Option (Option StartErr)
  deriving DecidableEq

/-- Run one scheduled segment of a task (failure-free engine). -/
def stepTask (w : World) (t : ConcTask) : World × ConcTask :=
  if t.res.isSome then (w, t)
  else
    match t.pc with
    | 0 =>
        if registryHas w.registry t.sid then (w, { t with res := some none })
        else (w, { t with pc := 1 })
    | 1 =>
        match getBrowserSession w.store t.sid with
        | none => (w, { t with res := some (some .notFound) })
        | some s => (w, { t with loaded := some s, pc := 2 })
    | 2 => ({ w with enginesLaunched := w.enginesLaunched + 1 }, { t with pc := 3 })
    | 3 => ({ w with store := saveCookiesStore w.store t.sid t.jar }, { t with pc := 4 })
    | _ =>
        let h : Handle :=
          { engineId := w.enginesLaunched
            pageClosed := false
            currentUrl := navTarget ((t.loaded.map (fun s => s.url)).getD "")
            liveJar := t.jar
            cdpChannel := none
            streamClients := [] }
        let w1 : World := { w with registry := registrySet w.registry t.sid h }
        let w2 : World := { w1 with store := updateSessionStatus w1.store t.sid .running }
        (w2, { t with res := some none })

/-- Interleave two start tasks under an explicit schedule
(`true` = run a segment of the first task, `false` = of the second). -/
def runConc : List Bool → World → ConcTask → ConcTask → World × ConcTask × ConcTask
  | [], w, a, b => (w, a, b)
  | true :: rest, w, a, b =>
      let r := stepTask w a
      runConc rest r.1 r.2 b
  | false :: rest, w, a, b =>
      let r := stepTask w b
      runConc rest r.1 a r.2

/-- A fresh `startSession(sid)` call about to run its first segment. -/
def newStartTask (sid : String) (jar : List JarCookie) : ConcTask :=
  { sid := sid, jar := jar, loaded := none, pc := 0, res := none }

/-- The racy schedule: the second call runs its registry check while the
first call is suspended on its store lookup. -/
def raceSchedule : List Bool :=
  [true, false, true, true, true, true, false, false, false, false]

/-- The all-of-the-first-then-all-of-the-second schedule. -/
def seqSchedule : List Bool :=
  [true, true, true, true, true, false, false, false, false, false]

/-- Number of registry entries carrying a given session id. -/
def countKey (r : List (String × Handle)) (sid : String) : Nat :=
  (r.filter (fun p => p.1 = sid)).length

/-- C1 counterexample: two concurrent `startSession` calls for the same
session id, interleaved so that the second call's `activeBrowsers.has`
check runs while the first is awaiting its store lookup, both complete
successfully and launch two engine processes for the one id — the second
call does not observe the first call's handle and is not a no-op. -/
theorem concurrent_start_two_engines_counterexample :
    (runConc raceSchedule sampleWorld (newStartTask "s1" []) (newStartTask "s1" [])).1.enginesLaunched = 2 ∧
      (runConc raceSchedule sampleWorld (newStartTask "s1" []) (newStartTask "s1" [])).2.1.res = some none ∧
      (runConc raceSchedule sampleWorld (newStartTask "s1" []) (newStartTask "s1" [])).2.2.res = some none := by
  refine ⟨?_, ?_, ?_⟩
  · rfl
  · rfl
  · rfl

lemma countKey_map_preserve (r : List (String × Handle)) (sid sid' : String) (hdl : Handle) :
    countKey (r.map (fun q => if q.1 = sid' then (sid', hdl) else q)) sid = countKey r sid := by
  induction r with
  | nil => rfl
  | cons q t ih =>
      simp only [countKey] at ih ⊢
      by_cases hq : q.1 = sid'
      · by_cases hs : sid' = sid
        · subst hs
          simp [List.filter_cons, hq, ih]
        · have hqs : ¬ (q.1 = sid) := by rw [hq]; exact hs
          simp [List.filter_cons, hq, hs, hqs, ih]
      · by_cases hqs : q.1 = sid
        · have hss : ¬ (sid = sid') := fun hh => hq (hqs.trans hh)
          simp [List.filter_cons, hq, hqs, hss, ih]
        · simp [List.filter_cons, hq, hqs, ih]

lemma countKey_append (r s : List (String × Handle)) (sid : String) :
    countKey (r ++ s) sid = countKey r sid + countKey s sid := by
  simp [countKey, List.filter_append]

lemma registryHas_false_countKey_zero (r : List (String × Handle)) (sid : String)
    (h : registryHas r sid = false) : countKey r sid = 0 := by
  induction r with
  | nil => rfl
  | cons p t ih =>
      simp only [registryHas, Bool.or_eq_false_iff] at h
      have hp : ¬ (p.1 = sid) := by simpa using h.1
      simp [countKey, List.filter_cons, hp]
      simpa [countKey] using ih h.2

lemma countKey_set_le (r : List (String × Handle)) (sid' sid : String) (hdl : Handle)
    (hc : countKey r sid ≤ 1) : countKey (registrySet r sid' hdl) sid ≤ 1 := by
  by_cases hh : registryHas r sid'
  · simp only [registrySet, if_pos hh]
    rw [countKey_map_preserve]
    exact hc
  · simp only [registrySet, hh, Bool.false_eq_true, if_false]
    rw [countKey_append]
    by_cases hs : sid' = sid
    · subst hs
      rw [registryHas_false_countKey_zero r sid' (by simpa using hh)]
      simp [countKey, List.filter_cons]
    · have h0 : countKey [(sid', hdl)] sid = 0 := by
        simp [countKey, List.filter_cons, hs]
      rw [h0]
      simpa using hc

lemma stepTask_countKey (w : World) (t : ConcTask) (sid : String)
    (hc : countKey w.registry sid ≤ 1) :
    countKey (stepTask w t).1.registry sid ≤ 1 := by
  by_cases hres : t.res.isSome
  · simpa [stepTask, hres] using hc
  · rcases hpc : t.pc with _ | _ | _ | _ | n
    · by_cases hreg : registryHas w.registry t.sid
      · simpa [stepTask, hres, hpc, hreg] using hc
      · simpa [stepTask, hres, hpc, hreg] using hc
    · cases hfind : getBrowserSession w.store t.sid with
      | none => simpa [stepTask, hres, hpc, hfind] using hc
      | some s => simpa [stepTask, hres, hpc, hfind] using hc
    · simpa [stepTask, hres, hpc] using hc
    · simpa [stepTask, hres, hpc] using hc
    · simp only [stepTask, hres, Bool.false_eq_true, if_false, hpc]
      exact countKey_set_le _ _ _ _ hc

lemma runConc_countKey (sched : List Bool) (w : World) (a b : ConcTask) (sid : String)
    (hc : countKey w.registry sid ≤ 1) :
    countKey (runConc sched w a b).1.registry sid ≤ 1 := by
  induction sched generalizing w a b with
  | nil => exact hc
  | cons c rest ih =>
      cases c with
      | true => exact ih (stepTask w a).1 (stepTask w a).2 b (stepTask_countKey w a sid hc)
      | false => exact ih (stepTask w b).1 a (stepTask w b).2 (stepTask_countKey w b sid hc)

/-- C1 as amended: the registry (a JS `Map`) holds at most one handle
per session id at any point of any interleaving of two start calls
(a second registration overwrites the first), and a second start that
begins after another start has registered its handle observes the handle
and is a complete no-op — the world, in particular the engine count, is
unchanged.  (The counterexample shows the no-op guarantee does not
extend to a second start whose registry check runs while the first start
is still in flight: that start launches a second engine process.) -/
theorem registry_at_most_one_handle_late_second_start_noop :
    (∀ (sched : List Bool) (w : World) (a b : ConcTask) (sid : String),
      countKey w.registry sid ≤ 1 →
      countKey (runConc sched w a b).1.registry sid ≤ 1) ∧
      (∀ (w : World) (a : ConcTask) (sid : String) (jar : List JarCookie),
        registryHas w.registry sid = true →
        (runConc [false, false, false, false, false] w a (newStartTask sid jar)).1 = w ∧
          (runConc [false, false, false, false, false] w a (newStartTask sid jar)).2.2.res =
            some none) := by
  constructor
  · exact fun sched w a b sid hc => runConc_countKey sched w a b sid hc
  · intro w a sid jar hreg
    simp [runConc, stepTask, newStartTask, hreg]

/-- Witness for the amended C1 theorem: the at-most-one-handle bound on
the racy interleaving, and the no-op of a second start issued against
`staleWorld`, where a handle for `s1` is already registered. -/
theorem registry_at_most_one_handle_late_second_start_noop_witness :
    countKey (runConc raceSchedule sampleWorld (newStartTask "s1" []) (newStartTask "s1" [])).1.registry "s1" ≤ 1 ∧
      ((runConc [false, false, false, false, false] staleWorld (newStartTask "s1" []) (newStartTask "s1" [])).1 = staleWorld ∧
        (runConc [false, false, false, false, false] staleWorld (newStartTask "s1" []) (newStartTask "s1" [])).2.2.res =
          some none) :=
  ⟨registry_at_most_one_handle_late_second_start_noop.1 raceSchedule sampleWorld
      (newStartTask "s1" []) (newStartTask "s1" []) "s1" (by decide),
    registry_at_most_one_handle_late_second_start_noop.2 staleWorld (newStartTask "s1" []) "s1" [] rfl⟩

/-- The sessions scanned by `restoreRunningSessions`:
`storage.getBrowserSessionsByUserId("admin")` filtered to
`status === "running"`. -/
def adminRunningSessions (st : Store) : List SessionRec :=
  (st.sessions.filter (fun s => s.userId = "admin")).filter
    (fun s => s.status = SessStatus.running)

/-- `restoreRunningSessions()`: for each scanned session, call
`startSession` and ignore (log) its failure.  Besides the final world,
the list of session ids for which a start was attempted is returned. -/
def restoreRunningSessions (failSpec : String → Option StartStep)
    (jarOf : String → List JarCookie) (w : World) : World × List String :=
  (adminRunningSessions w.store).foldl
    (fun acc s =>
      ((startSession (failSpec s.id) (jarOf s.id) acc.1 s.id).1, acc.2 ++ [s.id]))
    (w, [])

/-- A running session owned by a non-admin user. -/
def bobSession : SessionRec :=
  { id := "b1"
    userId := "bob"
    url := "https://example.com"
    status := .running
    viewportWidth := none
    viewportHeight := none
    userAgent := none }

/-- A world whose store holds only `bobSession`. -/
def bobWorld : World :=
  { store := { sessions := [bobSession], cookies := [] }
    registry := []
    enginesLaunched := 0 }

/-- C7 counterexample: session `b1` is persisted as running but owned by
user `bob`, and `restoreRunningSessions` — which scans only sessions of
user `admin` — attempts no start for it and leaves the world untouched,
contradicting "calls start for every session whose last persisted status
is running (regardless of which user owns it)". -/
theorem restore_skips_non_admin_counterexample :
    sessionStatus bobWorld.store "b1" = some .running ∧
      restoreRunningSessions (fun _ => none) (fun _ => []) bobWorld = (bobWorld, []) := by
  constructor
  · rfl
  · rfl

lemma registryHas_eq_lookup_isSome (r : List (String × Handle)) (sid : String) :
    registryHas r sid = (registryLookup r sid).isSome := by
  induction r with
  | nil => rfl
  | cons p t ih =>
      by_cases hp : p.1 = sid
      · simp [registryHas, registryLookup, hp]
      · simp [registryHas, registryLookup, hp, ih]

lemma startSession_preserves_registered (failAt : Option StartStep) (jar : List JarCookie)
    (w : World) (sid sid' : String)
    (h : (registryLookup w.registry sid').isSome) :
    (registryLookup (startSession failAt jar w sid).1.registry sid').isSome := by
  by_cases hreg : registryHas w.registry sid
  · simpa [startSession, hreg] using h
  · cases hfind : getBrowserSession w.store sid with
    | none => simpa [startSession, hreg, hfind] using h
    | some s =>
      cases htry : tryStartBody failAt jar s w sid with
      | mk w' res =>
        cases res with
        | none =>
            have hform := tryStartBody_success failAt jar s w sid (by rw [htry])
            rw [htry] at hform
            simp only [Prod.mk.injEq] at hform
            simp only [startSession, hreg, Bool.false_eq_true, if_false, hfind, htry]
            rw [hform.1]
            simp only [registryLookup_set]
            by_cases hs : sid' = sid
            · simp [hs]
            · simpa [hs] using h
        | some st2 =>
            have hst := tryStartBody_failure failAt jar s w sid st2 (by rw [htry])
            rw [htry] at hst
            simp only [startSession, hreg, Bool.false_eq_true, if_false, hfind, htry]
            rw [hst.2]
            exact h

lemma startSession_success_registers (failAt : Option StartStep) (jar : List JarCookie)
    (w : World) (sid : String) (s : SessionRec)
    (hfind : getBrowserSession w.store sid = some s)
    (hfail : failAt = none) :
    (registryLookup (startSession failAt jar w sid).1.registry sid).isSome := by
  subst hfail
  by_cases hreg : registryHas w.registry sid
  · rw [registryHas_eq_lookup_isSome] at hreg
    simp [startSession, registryHas_eq_lookup_isSome, hreg]
  · have htry := tryStartBody_success none jar s w sid (by simp [tryStartBody])
    simp only [startSession, hreg, Bool.false_eq_true, if_false, hfind, htry]
    rw [registryLookup_set]
    simp

lemma getBrowserSession_update_isSome (st : Store) (sid : String) (status : SessStatus)
    (sid' : String) :
    (getBrowserSession (updateSessionStatus st sid status) sid').isSome =
      (getBrowserSession st sid').isSome := by
  simp only [getBrowserSession, updateSessionStatus]
  induction st.sessions with
  | nil => rfl
  | cons s t ih =>
      have hid : (if s.id = sid then { s with status := status } else s).id = s.id := by
        by_cases hs : s.id = sid
        · simp [hs]
        · simp [hs]
      simp only [List.map_cons, List.find?_cons]
      by_cases hs' : s.id = sid'
      · have h1 : (decide ((if s.id = sid then { s with status := status } else s).id = sid')) = true := by
          rw [hid]
          simp [hs']
        have h2 : (decide (s.id = sid')) = true := by simp [hs']
        simp only [h1, h2]
        rfl
      · have h1 : (decide ((if s.id = sid then { s with status := status } else s).id = sid')) = false := by
          rw [hid]
          simp [hs']
        have h2 : (decide (s.id = sid')) = false := by simp [hs']
        simp only [h1, h2]
        exact ih

lemma startSession_preserves_session_presence (failAt : Option StartStep) (jar : List JarCookie)
    (w : World) (sid sid' : String)
    (h : (getBrowserSession w.store sid').isSome) :
    (getBrowserSession (startSession failAt jar w sid).1.store sid').isSome := by
  by_cases hreg : registryHas w.registry sid
  · simpa [startSession, hreg] using h
  · cases hfind : getBrowserSession w.store sid with
    | none => simpa [startSession, hreg, hfind] using h
    | some s =>
      cases htry : tryStartBody failAt jar s w sid with
      | mk w' res =>
        cases res with
        | none =>
            have hform := tryStartBody_success failAt jar s w sid (by rw [htry])
            rw [htry] at hform
            simp only [Prod.mk.injEq] at hform
            simp only [startSession, hreg, Bool.false_eq_true, if_false, hfind, htry]
            rw [hform.1]
            simp only [getBrowserSession_update_isSome, getBrowserSession_saveCookies]
            exact h
        | some st2 =>
            have hst := tryStartBody_failure failAt jar s w sid st2 (by rw [htry])
            rw [htry] at hst
            simp only [startSession, hreg, Bool.false_eq_true, if_false, hfind, htry]
            rw [getBrowserSession_update_isSome, hst.1]
            exact h

lemma restore_fold_trace (failSpec : String → Option StartStep) (jarOf : String → List JarCookie)
    (l : List SessionRec) (w : World) (acc : List String) :
    (l.foldl (fun acc s => ((startSession (failSpec s.id) (jarOf s.id) acc.1 s.id).1, acc.2 ++ [s.id]))
        (w, acc)).2 = acc ++ l.map (fun s => s.id) := by
  induction l generalizing w acc with
  | nil => simp
  | cons s t ih => simp [List.foldl_cons, ih, List.append_assoc]

lemma restore_fold_preserves_registered (failSpec : String → Option StartStep)
    (jarOf : String → List JarCookie) (l : List SessionRec) (w : World) (acc : List String)
    (sid' : String)
    (h : (registryLookup w.registry sid').isSome) :
    (registryLookup ((l.foldl
        (fun acc s => ((startSession (failSpec s.id) (jarOf s.id) acc.1 s.id).1, acc.2 ++ [s.id]))
        (w, acc)).1).registry sid').isSome := by
  induction l generalizing w acc with
  | nil => exact h
  | cons s t ih =>
      exact ih _ _ (startSession_preserves_registered _ _ _ _ _ h)

lemma restore_fold_registers (failSpec : String → Option StartStep)
    (jarOf : String → List JarCookie) (l : List SessionRec) (w : World) (acc : List String)
    (hpres : ∀ s ∈ l, (getBrowserSession w.store s.id).isSome) :
    ∀ s ∈ l, failSpec s.id = none →
      (registryLookup ((l.foldl
          (fun acc s => ((startSession (failSpec s.id) (jarOf s.id) acc.1 s.id).1, acc.2 ++ [s.id]))
          (w, acc)).1).registry s.id).isSome := by
  induction l generalizing w acc with
  | nil =>
      intro s hs
      exact absurd hs (List.not_mem_nil s)
  | cons s0 t ih =>
      intro s hs hfail
      rw [List.foldl_cons]
      rcases List.mem_cons.mp hs with heq | hmem
      · subst heq
        have h0 : (getBrowserSession w.store s.id).isSome := hpres s (List.mem_cons_self s t)
        rcases Option.isSome_iff_exists.mp h0 with ⟨rec, hrec⟩
        have hreg1 := startSession_success_registers (failSpec s.id) (jarOf s.id) w s.id rec hrec hfail
        exact restore_fold_preserves_registered failSpec jarOf t _ _ s.id hreg1
      · refine ih _ _ ?_ s hmem hfail
        intro s2 hs2
        exact startSession_preserves_session_presence _ _ _ _ _
          (hpres s2 (List.mem_cons_of_mem s0 hs2))

lemma adminRunning_present (st : Store) (s : SessionRec) (hs : s ∈ adminRunningSessions st) :
    (getBrowserSession st s.id).isSome := by
  have hmem : s ∈ st.sessions := List.mem_of_mem_filter (List.mem_of_mem_filter hs)
  simp only [getBrowserSession]
  rw [List.find?_isSome]
  exact ⟨s, hmem, by simp⟩

/-- C7 as amended: `restoreRunningSessions` attempts a start for exactly
the sessions owned by user `"admin"` whose persisted status is running
(in store order) — not for running sessions of other owners — and start
failures are isolated: every scanned session whose own start does not
fail ends up with a registered handle, regardless of how many other
sessions' starts fail. -/
theorem restore_starts_admin_running_and_isolates_failures
    (failSpec : String → Option StartStep) (jarOf : String → List JarCookie) (w : World) :
    (restoreRunningSessions failSpec jarOf w).2 =
        (adminRunningSessions w.store).map (fun s => s.id) ∧
      ∀ s ∈ adminRunningSessions w.store, failSpec s.id = none →
        (registryLookup (restoreRunningSessions failSpec jarOf w).1.registry s.id).isSome := by
  constructor
  · simpa [restoreRunningSessions] using
      restore_fold_trace failSpec jarOf (adminRunningSessions w.store) w []
  · intro s hs hfail
    exact restore_fold_registers failSpec jarOf (adminRunningSessions w.store) w []
      (fun s2 hs2 => adminRunning_present w.store s2 hs2) s hs hfail

/-- An admin-owned running session whose restore start will fail. -/
def adminFailSession : SessionRec :=
  { id := "a1"
    userId := "admin"
    url := "https://example.com"
    status := .running
    viewportWidth := none
    viewportHeight := none
    userAgent := none }

/-- An admin-owned running session whose restore start succeeds. -/
def adminOkSession : SessionRec :=
  { id := "a2"
    userId := "admin"
    url := "https://example.org"
    status := .running
    viewportWidth := none
    viewportHeight := none
    userAgent := none }

/-- A store with a failing admin session, a succeeding admin session,
and a running session of another user. -/
def restoreWorld : World :=
  { store := { sessions := [adminFailSession, adminOkSession, bobSession], cookies := [] }
    registry := []
    enginesLaunched := 0 }

/-- Failure oracle for the restore witness: only `a1`'s launch fails. -/
def restoreFailSpec : String → Option StartStep :=
  fun sid => if sid = "a1" then some .launch else none

/-- Witness for the amended C7 theorem: both admin sessions are
attempted (and only they), and `a2` is registered although `a1`'s start
failed first. -/
theorem restore_starts_admin_running_and_isolates_failures_witness :
    (restoreRunningSessions restoreFailSpec (fun _ => []) restoreWorld).2 =
        (adminRunningSessions restoreWorld.store).map (fun s => s.id) ∧
      (registryLookup
        (restoreRunningSessions restoreFailSpec (fun _ => []) restoreWorld).1.registry
        "a2").isSome :=
  ⟨(restore_starts_admin_running_and_isolates_failures restoreFailSpec (fun _ => []) restoreWorld).1,
    (restore_starts_admin_running_and_isolates_failures restoreFailSpec (fun _ => []) restoreWorld).2
      adminOkSession (by decide) (by decide)⟩

/-- One incoming viewer connection as seen by the WebSocket handler:
the query-string session id, whether the session/passport middleware
throws, the authentication result, the resolved user id, and the
socket's ready state (1 = open, 0 = connecting). -/
structure WsConn where
  sessionId : Option String
  middlewareFails : Bool
  authenticated : Bool
  userId : Option String
  readyState : Nat
  deriving DecidableEq

/-- Outcome of the connection handler: a `ws.close(code, reason)`, the
connection proceeding to the screencast, or no close call at all (the
outer catch when the socket is neither open nor connecting). -/
inductive WsOutcome
  | closedWith (code : Nat) (reason : String)
  | accepted
  | noClose
  deriving DecidableEq

/-- The `wss.on('connection')` handler of the server entry point
(part_004 lines 817-948): missing session id closes with 1008; a
middleware throw lands in the outer catch, closing with 1011 when open
(1000 when still connecting); failed authentication or a missing user id
closes with 1008; an unknown session or an ownership mismatch closes
with 1008; a failed start of an inactive session closes with 1011. -/
def wsHandleConnection (st : Store) (active startOk : Bool) (c : WsConn) : WsOutcome :=
  match c.sessionId with
  | none => .closedWith 1008 "Session ID required"
  | some sid =>
    if c.middlewareFails then
      if c.readyState = 1 then .closedWith 1011 "Internal server error"
      else if c.readyState = 0 then .closedWith 1000 "Normal closure"
      else .noClose
    else if c.authenticated then
      match c.userId with
      | none => .closedWith 1008 "Authentication required"
      | some uid =>
        match getBrowserSession st sid with
        | none => .closedWith 1008 "Permission denied"
        | some sess =>
          if sess.userId = uid then
            if active then .accepted
            else if startOk then .accepted
            else .closedWith 1011 "Failed to start browser session"
          else .closedWith 1008 "Permission denied"
    else .closedWith 1008 "Authentication required"

/-- The close code of an outcome, when one was sent. -/
def wsCloseCode : WsOutcome → Option Nat
  | .closedWith code _ => some code
  | _ => none

/-- A store holding one admin-owned session for the transport theorems. -/
def wsDemoStore : Store :=
  { sessions := [sampleSession], cookies := [] }

/-- A connection with no session id in the query string. -/
def connMissingId : WsConn :=
  { sessionId := none
    middlewareFails := false
    authenticated := true
    userId := some "admin"
    readyState := 1 }

/-- An authenticated connection of user `eve` to `admin`'s session. -/
def connWrongOwner : WsConn :=
  { sessionId := some "s1"
    middlewareFails := false
    authenticated := true
    userId := some "eve"
    readyState := 1 }

/-- C9 counterexample: a missing session id and a failed
authorization/ownership check — two of the three rejection causes the
spec requires to be distinguishable — close the viewer connection with
the same code 1008. -/
theorem ws_close_codes_counterexample :
    wsCloseCode (wsHandleConnection wsDemoStore true true connMissingId) = some 1008 ∧
      wsCloseCode (wsHandleConnection wsDemoStore true true connWrongOwner) = some 1008 := by
  constructor
  · rfl
  · rfl

/-- C9 as amended: missing session id, failed authentication, and a
failed ownership check all close the connection with the same code 1008;
only internal failure is closed with a distinct code, 1011 (when the
socket is open).  No code distinguishes a missing session id from a
failed authorization check. -/
theorem ws_close_codes (st : Store) (active startOk : Bool) (c : WsConn) (sid uid : String)
    (sess : SessionRec) :
    (c.sessionId = none →
      wsHandleConnection st active startOk c = .closedWith 1008 "Session ID required") ∧
      (c.sessionId = some sid → c.middlewareFails = false → c.authenticated = false →
        wsHandleConnection st active startOk c = .closedWith 1008 "Authentication required") ∧
      (c.sessionId = some sid → c.middlewareFails = false → c.authenticated = true →
        c.userId = some uid → getBrowserSession st sid = some sess → sess.userId ≠ uid →
        wsHandleConnection st active startOk c = .closedWith 1008 "Permission denied") ∧
      (c.sessionId = some sid → c.middlewareFails = true → c.readyState = 1 →
        wsHandleConnection st active startOk c = .closedWith 1011 "Internal server error") ∧
      (1008 : Nat) ≠ 1011 := by
  refine ⟨?_, ?_, ?_, ?_, by decide⟩
  · intro h1
    simp [wsHandleConnection, h1]
  · intro h1 h2 h3
    simp [wsHandleConnection, h1, h2, h3]
  · intro h1 h2 h3 h4 h5 h6
    simp [wsHandleConnection, h1, h2, h3, h4, h5, h6]
  · intro h1 h2 h3
    simp [wsHandleConnection, h1, h2, h3]

/-- An unauthenticated connection naming session `s1`. -/
def connUnauthenticated : WsConn :=
  { sessionId := some "s1"
    middlewareFails := false
    authenticated := false
    userId := none
    readyState := 1 }

/-- A connection whose middleware throws while the socket is open. -/
def connInternalError : WsConn :=
  { sessionId := some "s1"
    middlewareFails := true
    authenticated := false
    userId := none
    readyState := 1 }

/-- Witness for the amended C9 theorem on the four concrete connections. -/
theorem ws_close_codes_witness :
    wsHandleConnection wsDemoStore true true connMissingId =
        .closedWith 1008 "Session ID required" ∧
      wsHandleConnection wsDemoStore true true connUnauthenticated =
        .closedWith 1008 "Authentication required" ∧
      wsHandleConnection wsDemoStore true true connWrongOwner =
        .closedWith 1008 "Permission denied" ∧
      wsHandleConnection wsDemoStore true true connInternalError =
        .closedWith 1011 "Internal server error" :=
  ⟨(ws_close_codes wsDemoStore true true connMissingId "s1" "admin" sampleSession).1 rfl,
    (ws_close_codes wsDemoStore true true connUnauthenticated "s1" "admin" sampleSession).2.1
      rfl rfl rfl,
    (ws_close_codes wsDemoStore true true connWrongOwner "s1" "eve" sampleSession).2.2.1
      rfl rfl rfl rfl rfl (by decide),
    (ws_close_codes wsDemoStore true true connInternalError "s1" "admin" sampleSession).2.2.2.1
      rfl rfl rfl⟩

end Webbbb
